import Mathlib

/-!
Shallow embedding of the PKCS#11 test-fixture layer (`pkcs11test.h`).

The header defines gtest fixture classes (`PKCS11Test`, `SessionTest`,
`ReadOnlySessionTest`, `ReadWriteSessionTest`, the `*UserSessionTest` /
`*SOSessionTest` / `*EitherSessionTest` variants) and RAII guards
(`Session<F>`, `LoginSession<F,U>`).  Every constructor/destructor issues a
fixed sequence of PKCS#11 calls through the dispatch table `g_fns` and
records `EXPECT_CKR_OK` assertions.  We model the library and the
process-wide globals (`g_slot_id`, `g_user_pin`, `g_so_pin`,
`g_token_flags`) as an environment `Env` that fixes the status value
returned by each call and what each call writes through its out-parameter,
and we model a fixture's full lifetime as the list of events (calls,
assertions, error-stream diagnostics) it produces in order.
-/

namespace Pkcs11

/-- `CKR_OK`, the canonical success status of a PKCS#11 call. -/
def CKR_OK : Nat := 0

/-- `#define INVALID_SESSION_HANDLE 99999` from `pkcs11test.h`. -/
def INVALID_SESSION_HANDLE : Nat := 99999

/-- Token-present bit of `CK_SLOT_INFO.flags` (`CKF_TOKEN_PRESENT`). -/
def CKF_TOKEN_PRESENT : Nat := 1

/-- Read-write session flag for `C_OpenSession` (`CKF_RW_SESSION`). -/
def CKF_RW_SESSION : Nat := 2

/-- Serial session flag for `C_OpenSession` (`CKF_SERIAL_SESSION`). -/
def CKF_SERIAL_SESSION : Nat := 4

/-- Login-required bit of the token flags (`CKF_LOGIN_REQUIRED`). -/
def CKF_LOGIN_REQUIRED : Nat := 4

/-- Security-officer user type (`CKU_SO`). -/
def CKU_SO : Nat := 0

/-- Ordinary user type (`CKU_USER`). -/
def CKU_USER : Nat := 1

/-- One observable event of a fixture run: a PKCS#11 call through `g_fns`
(with its arguments and resulting status), an `EXPECT_CKR_OK` assertion on
a status value, or a diagnostic written to `std::cerr`. -/
inductive Event where
  | initCall (rv : Nat)
  | finCall (rv : Nat)
  | getSlotInfoCall (slot : Nat) (rv : Nat) (flags : Nat)
  | openSessionCall (slot : Nat) (flags : Nat) (rv : Nat)
  | closeSessionCall (h : Nat) (rv : Nat)
  | loginCall (h : Nat) (user : Nat) (pin : String) (rv : Nat)
  | logoutCall (h : Nat) (rv : Nat)
  | expectOk (rv : Nat)
  | cerrTokenWarning
  | cerrLoginFailure (user : Nat) (rv : Nat)
  deriving DecidableEq

/-- The collaborator and the process-wide globals: slot id and PINs
(`g_slot_id`, `g_user_pin`, `g_so_pin`), the token flags snapshot
(`g_token_flags`), the status each dispatch-table entry returns, and what
`C_OpenSession` writes through its `CK_SESSION_HANDLE` out-parameter
(`none` models a library that leaves the out-parameter untouched). -/
structure Env where
  slotId : Nat
  userPin : String
  soPin : String
  tokenFlags : Nat
  initRv : Nat
  finRv : Nat
  slotInfoRv : Nat
  slotInfoFlags : Nat
  openRv : Nat → Nat → Nat
  openWrite : Nat → Nat → Option Nat
  closeRv : Nat → Nat
  loginRv : Nat → Nat → String → Nat
  logoutRv : Nat → Nat

/-- `PKCS11Test::PKCS11Test`: `EXPECT_CKR_OK(g_fns->C_Initialize(NULL_PTR))`. -/
def pkcs11CtorTrace (e : Env) : List Event :=
  [.initCall e.initRv, .expectOk e.initRv]

/-- `PKCS11Test::~PKCS11Test`: `EXPECT_CKR_OK(g_fns->C_Finalize(NULL_PTR))`. -/
def pkcs11DtorTrace (e : Env) : List Event :=
  [.finCall e.finRv, .expectOk e.finRv]

/-- Full lifetime of a bare `PKCS11Test` fixture: constructor then
destructor. -/
def pkcs11LifetimeTrace (e : Env) : List Event :=
  pkcs11CtorTrace e ++ pkcs11DtorTrace e

/-- `SessionTest::SessionTest` body: `EXPECT_CKR_OK(C_GetSlotInfo(g_slot_id, ...))`,
then a `std::cerr` warning when the slot-info flags lack
`CKF_TOKEN_PRESENT`.  (The member initializer sets
`session_ = INVALID_SESSION_HANDLE` before this body runs.) -/
def sessionCtorTrace (e : Env) : List Event :=
  [.getSlotInfoCall e.slotId e.slotInfoRv e.slotInfoFlags, .expectOk e.slotInfoRv] ++
    (if e.slotInfoFlags &&& CKF_TOKEN_PRESENT = 0 then [.cerrTokenWarning] else [])

/-- One `EXPECT_CKR_OK(C_OpenSession(g_slot_id, flags, NULL_PTR, NULL_PTR, &session_))`
call, as issued by `ReadOnlySessionTest`, `ReadWriteSessionTest` and
`Session<F>`. -/
def openTrace (e : Env) (flags : Nat) : List Event :=
  [.openSessionCall e.slotId flags (e.openRv e.slotId flags),
   .expectOk (e.openRv e.slotId flags)]

/-- The value of the `session_` member after `C_OpenSession(g_slot_id, flags,
..., &session_)` returns, when the member held `init` before the call: the
value the library wrote through the out-parameter, or `init` when it wrote
nothing. -/
def storedHandle (e : Env) (flags : Nat) (init : Nat) : Nat :=
  (e.openWrite e.slotId flags).getD init

/-- `SessionTest::~SessionTest`: close the session, and assert success, only
when `session_ != INVALID_SESSION_HANDLE`. -/
def sessionDtorTrace (e : Env) (s : Nat) : List Event :=
  if s ≠ INVALID_SESSION_HANDLE then
    [.closeSessionCall s (e.closeRv s), .expectOk (e.closeRv s)]
  else []

/-- `SessionTest::Login(user_type, pin)`: one `C_Login` call; on a
non-`CKR_OK` status only a `std::cerr` diagnostic is produced — no
`EXPECT` assertion is recorded. -/
def loginTrace (e : Env) (s user : Nat) (pin : String) : List Event :=
  [.loginCall s user pin (e.loginRv s user pin)] ++
    (if e.loginRv s user pin ≠ CKR_OK then
      [.cerrLoginFailure user (e.loginRv s user pin)]
    else [])

/-- The two session fixture access modes: `ReadOnlySessionTest` /
`ReadWriteSessionTest` (and the corresponding `Session<F>` instantiations). -/
inductive AccessMode where
  | ro
  | rw
  deriving DecidableEq

/-- The `CK_FLAGS` each access mode passes to `C_OpenSession`:
`CKF_SERIAL_SESSION` alone for read-only, `CKF_SERIAL_SESSION | CKF_RW_SESSION`
for read-write. -/
def AccessMode.flags : AccessMode → Nat
  | .ro => CKF_SERIAL_SESSION
  | .rw => CKF_SERIAL_SESSION ||| CKF_RW_SESSION

/-- The `session_` member of a `ReadOnlySessionTest` / `ReadWriteSessionTest`
after construction: `SessionTest` initializes it to
`INVALID_SESSION_HANDLE`, then the derived constructor's `C_OpenSession`
may overwrite it. -/
def sessionFixtureStored (e : Env) (m : AccessMode) : Nat :=
  storedHandle e m.flags INVALID_SESSION_HANDLE

/-- Full lifetime trace of a `ReadOnlySessionTest` / `ReadWriteSessionTest`
fixture: `PKCS11Test` ctor, `SessionTest` ctor, derived ctor's open, then
destructors in reverse order (`~SessionTest`'s conditional close,
`~PKCS11Test`'s finalize). -/
def sessionFixtureTrace (e : Env) (m : AccessMode) : List Event :=
  pkcs11CtorTrace e ++ sessionCtorTrace e ++ openTrace e m.flags ++
    sessionDtorTrace e (sessionFixtureStored e m) ++ pkcs11DtorTrace e

/-- The five login fixture variants of `pkcs11test.h`:
`ROUserSessionTest`, `RWUserSessionTest`, `RWSOSessionTest` (mandatory
login) and `ROEitherSessionTest`, `RWEitherSessionTest` (login only when
the token flags demand it). -/
inductive AuthVariant where
  | roUser
  | rwUser
  | rwSO
  | roEither
  | rwEither
  deriving DecidableEq

/-- The access mode of the base session fixture each variant extends. -/
def AuthVariant.mode : AuthVariant → AccessMode
  | .roUser => .ro
  | .roEither => .ro
  | .rwUser => .rw
  | .rwSO => .rw
  | .rwEither => .rw

/-- The `CK_USER_TYPE` each variant logs in as. -/
def AuthVariant.userType : AuthVariant → Nat
  | .rwSO => CKU_SO
  | _ => CKU_USER

/-- The PIN each variant uses: `g_so_pin` for the security officer,
`g_user_pin` otherwise. -/
def AuthVariant.pin (v : AuthVariant) (e : Env) : String :=
  if v = .rwSO then e.soPin else e.userPin

/-- Whether the variant guards its login/logout with
`g_token_flags & CKF_LOGIN_REQUIRED` (the two `Either` fixtures). -/
def AuthVariant.conditional : AuthVariant → Bool
  | .roEither => true
  | .rwEither => true
  | _ => false

/-- Whether the variant performs login/logout at all, given the token
flags: mandatory variants always do, `Either` variants exactly when
`g_token_flags & CKF_LOGIN_REQUIRED` is set. -/
def doesLogin (v : AuthVariant) (tokenFlags : Nat) : Bool :=
  if v.conditional then tokenFlags &&& CKF_LOGIN_REQUIRED != 0 else true

/-- Derived login-fixture constructor body: `Login(user, pin)` — always for
the mandatory variants, guarded by `g_token_flags & CKF_LOGIN_REQUIRED`
for the `Either` variants. -/
def authCtorTrace (e : Env) (v : AuthVariant) (s : Nat) : List Event :=
  if doesLogin v e.tokenFlags then loginTrace e s v.userType (v.pin e) else []

/-- Derived login-fixture destructor body: `EXPECT_CKR_OK(C_Logout(session_))`
under the same condition as the constructor's login. -/
def authDtorTrace (e : Env) (v : AuthVariant) (s : Nat) : List Event :=
  if doesLogin v e.tokenFlags then
    [.logoutCall s (e.logoutRv s), .expectOk (e.logoutRv s)]
  else []

/-- Full lifetime trace of a login fixture variant: the base chain
(`PKCS11Test` ctor, `SessionTest` ctor, open), the variant's login, then
destructors in reverse order: logout, `~SessionTest`'s conditional close,
`~PKCS11Test`'s finalize. -/
def authFixtureTrace (e : Env) (v : AuthVariant) : List Event :=
  pkcs11CtorTrace e ++ sessionCtorTrace e ++ openTrace e v.mode.flags ++
    authCtorTrace e v (sessionFixtureStored e v.mode) ++
    authDtorTrace e v (sessionFixtureStored e v.mode) ++
    sessionDtorTrace e (sessionFixtureStored e v.mode) ++ pkcs11DtorTrace e

/-- The `session_` member of a RAII `Session<F>` guard after construction.
The member is declared without an initializer, so before the open call it
holds an indeterminate value `init`; `C_OpenSession` may overwrite it. -/
def sessionGuardStored (e : Env) (F init : Nat) : Nat :=
  (e.openWrite e.slotId F).getD init

/-- `Session<F>::~Session`: `EXPECT_CKR_OK(C_CloseSession(session_))`,
unconditionally. -/
def sessionGuardDtorTrace (e : Env) (F init : Nat) : List Event :=
  [.closeSessionCall (sessionGuardStored e F init)
     (e.closeRv (sessionGuardStored e F init)),
   .expectOk (e.closeRv (sessionGuardStored e F init))]

/-- Full lifetime trace of a RAII `Session<F>` guard whose uninitialized
`session_` member happened to hold `init`. -/
def sessionGuardTrace (e : Env) (F init : Nat) : List Event :=
  openTrace e F ++ sessionGuardDtorTrace e F init

/-- Full lifetime trace of a RAII `LoginSession<F, U>` guard: the base
`Session<F>` open, the constructor's `C_Login` (diagnostic-only on
failure), the destructor's bare `C_Logout` (no `EXPECT`), then the base
destructor's asserted close. -/
def loginSessionTrace (e : Env) (F U init : Nat) (pin : String) : List Event :=
  openTrace e F ++
    loginTrace e (sessionGuardStored e F init) U pin ++
    [.logoutCall (sessionGuardStored e F init)
       (e.logoutRv (sessionGuardStored e F init))] ++
    sessionGuardDtorTrace e F init

/-- `typedef Session<CKF_SERIAL_SESSION> ROSession`. -/
def ROSessionTrace (e : Env) (init : Nat) : List Event :=
  sessionGuardTrace e CKF_SERIAL_SESSION init

/-- `typedef Session<(CKF_SERIAL_SESSION|CKF_RW_SESSION)> RWSession`. -/
def RWSessionTrace (e : Env) (init : Nat) : List Event :=
  sessionGuardTrace e (CKF_SERIAL_SESSION ||| CKF_RW_SESSION) init

/-- Number of events satisfying `p` in a trace. -/
def countEv (p : Event → Bool) (t : List Event) : Nat :=
  (t.filter p).length

/-- Is the event a `C_Initialize` call? -/
def Event.isInit : Event → Bool
  | .initCall _ => true
  | _ => false

/-- Is the event a `C_Finalize` call? -/
def Event.isFin : Event → Bool
  | .finCall _ => true
  | _ => false

/-- Is the event a `C_OpenSession` call? -/
def Event.isOpen : Event → Bool
  | .openSessionCall _ _ _ => true
  | _ => false

/-- Is the event a `C_CloseSession` call? -/
def Event.isClose : Event → Bool
  | .closeSessionCall _ _ => true
  | _ => false

/-- Is the event a `C_Login` call? -/
def Event.isLogin : Event → Bool
  | .loginCall _ _ _ _ => true
  | _ => false

/-- Is the event a `C_Logout` call? -/
def Event.isLogout : Event → Bool
  | .logoutCall _ _ => true
  | _ => false

/-- The status values asserted by `EXPECT_CKR_OK` in a trace, in order. -/
def assertedRvs (t : List Event) : List Nat :=
  t.filterMap fun ev =>
    match ev with
    | .expectOk rv => some rv
    | _ => none

/-- Number of recorded gtest failures in a trace: the `EXPECT_CKR_OK`
assertions whose actual status differs from `CKR_OK`. -/
def testFailures (t : List Event) : Nat :=
  ((assertedRvs t).filter fun rv => rv != CKR_OK).length

/-- The flags arguments of the `C_OpenSession` calls in a trace, in order. -/
def openFlagsIn (t : List Event) : List Nat :=
  t.filterMap fun ev =>
    match ev with
    | .openSessionCall _ f _ => some f
    | _ => none

/-- No event of the trace satisfies `p`. -/
def noneSat (p : Event → Bool) (t : List Event) : Bool :=
  t.all fun ev => !(p ev)

/-- No event satisfying `p` occurs at a strictly earlier position than an
event satisfying `q`: "a `q`-event is never observed after a `p`-event". -/
def neverBefore (p q : Event → Bool) (t : List Event) : Prop :=
  ∀ i j : Fin t.length, (i : Nat) < (j : Nat) →
    ¬(p (t.get i) = true ∧ q (t.get j) = true)

/-- Every event satisfying `p` occurs at a strictly earlier position than
every event satisfying `q`. -/
def allBefore (p q : Event → Bool) (t : List Event) : Prop :=
  ∀ i j : Fin t.length, p (t.get i) = true → q (t.get j) = true →
    (i : Nat) < (j : Nat)

lemma noneSat_of_mem {p : Event → Bool} {t : List Event}
    (h : noneSat p t = true) {ev : Event} (hev : ev ∈ t) : p ev = false := by
  have := List.all_eq_true.mp h ev hev
  simpa using this

lemma neverBefore_split {p q : Event → Bool} {t₁ t₂ : List Event}
    (h₁ : noneSat p t₁ = true) (h₂ : noneSat q t₂ = true) :
    neverBefore p q (t₁ ++ t₂) := by
  intro i j hij hpq
  rcases hpq with ⟨hp, hq⟩
  rcases Nat.lt_or_ge (i : Nat) t₁.length with hi | hi
  · have hmem : (t₁ ++ t₂).get i ∈ t₁ := by
      have : (t₁ ++ t₂).get i = t₁.get ⟨(i : Nat), hi⟩ := by
        simp [List.get_eq_getElem, List.getElem_append_left hi]
      rw [this]
      exact List.get_mem _ _ _
    have := noneSat_of_mem h₁ hmem
    rw [hp] at this
    exact Bool.noConfusion this
  · have hj : t₁.length ≤ (j : Nat) := le_trans hi (Nat.le_of_lt hij)
    have hjlt : (j : Nat) - t₁.length < t₂.length := by
      have := j.isLt
      simp [List.length_append] at this
      omega
    have hmem : (t₁ ++ t₂).get j ∈ t₂ := by
      have : (t₁ ++ t₂).get j = t₂.get ⟨(j : Nat) - t₁.length, hjlt⟩ := by
        simp [List.get_eq_getElem, List.getElem_append_right hj]
      rw [this]
      exact List.get_mem _ _ _
    have := noneSat_of_mem h₂ hmem
    rw [hq] at this
    exact Bool.noConfusion this

lemma allBefore_split {p q : Event → Bool} {t₁ t₂ : List Event}
    (h₁ : noneSat p t₂ = true) (h₂ : noneSat q t₁ = true) :
    allBefore p q (t₁ ++ t₂) := by
  intro i j hp hq
  rcases Nat.lt_or_ge (i : Nat) t₁.length with hi | hi
  · rcases Nat.lt_or_ge (j : Nat) t₁.length with hj | hj
    · exfalso
      have hmem : (t₁ ++ t₂).get j ∈ t₁ := by
        have : (t₁ ++ t₂).get j = t₁.get ⟨(j : Nat), hj⟩ := by
          simp [List.get_eq_getElem, List.getElem_append_left hj]
        rw [this]
        exact List.get_mem _ _ _
      have := noneSat_of_mem h₂ hmem
      rw [hq] at this
      exact Bool.noConfusion this
    · exact lt_of_lt_of_le hi hj
  · exfalso
    have hilt : (i : Nat) - t₁.length < t₂.length := by
      have := i.isLt
      simp [List.length_append] at this
      omega
    have hmem : (t₁ ++ t₂).get i ∈ t₂ := by
      have : (t₁ ++ t₂).get i = t₂.get ⟨(i : Nat) - t₁.length, hilt⟩ := by
        simp [List.get_eq_getElem, List.getElem_append_right hi]
      rw [this]
      exact List.get_mem _ _ _
    have := noneSat_of_mem h₁ hmem
    rw [hp] at this
    exact Bool.noConfusion this

/-- Replace the collaborator's `C_Login` behaviour with the constant
status `rv` (the rest of the environment, in particular the other call
results and the globals, is unchanged). -/
def Env.withLoginRv (e : Env) (rv : Nat) : Env :=
  { e with loginRv := fun _ _ _ => rv }

/-- Replace the collaborator's `C_Logout` behaviour with the constant
status `rv`. -/
def Env.withLogoutRv (e : Env) (rv : Nat) : Env :=
  { e with logoutRv := fun _ => rv }

/-- Replace the slot-info flags with a value whose `CKF_TOKEN_PRESENT`
bit is set (a run of the same test against a slot with a token present). -/
def Env.withTokenPresent (e : Env) : Env :=
  { e with slotInfoFlags := CKF_TOKEN_PRESENT }

/-- A concrete well-behaved environment: every call succeeds, the token is
present and requires login, and a successful `C_OpenSession` writes the
handle `7`. -/
def baseEnv : Env :=
  { slotId := 1
    userPin := "123456"
    soPin := "000000"
    tokenFlags := CKF_LOGIN_REQUIRED
    initRv := 0
    finRv := 0
    slotInfoRv := 0
    slotInfoFlags := CKF_TOKEN_PRESENT
    openRv := fun _ _ => 0
    openWrite := fun _ _ => some 7
    closeRv := fun _ => 0
    loginRv := fun _ _ _ => 0
    logoutRv := fun _ => 0 }

/-- A concrete environment in which `C_OpenSession` succeeds (`CKR_OK`)
but writes the handle value `99999`, numerically equal to
`INVALID_SESSION_HANDLE`. -/
def collideEnv : Env :=
  { baseEnv with openWrite := fun _ _ => some INVALID_SESSION_HANDLE }

/-- A concrete environment in which `C_Login` always fails with status `5`
and every other call succeeds. -/
def loginFailEnv : Env :=
  { baseEnv with loginRv := fun _ _ _ => 5 }

/-- A concrete environment in which `C_OpenSession` fails with status `6`
and writes nothing through its out-parameter. -/
def openFailEnv : Env :=
  { baseEnv with openRv := fun _ _ => 6, openWrite := fun _ _ => none }

/-- A concrete environment whose slot reports no token present (all calls
still succeed). -/
def noTokenEnv : Env :=
  { baseEnv with slotInfoFlags := 0 }

lemma countEv_append (p : Event → Bool) (t₁ t₂ : List Event) :
    countEv p (t₁ ++ t₂) = countEv p t₁ + countEv p t₂ := by
  simp [countEv, List.filter_append]

lemma assertedRvs_append (t₁ t₂ : List Event) :
    assertedRvs (t₁ ++ t₂) = assertedRvs t₁ ++ assertedRvs t₂ := by
  simp [assertedRvs, List.filterMap_append]

/-- `SessionTest::Login` records no `EXPECT` assertion, whatever the
login status. -/
lemma assertedRvs_loginTrace (e : Env) (s user : Nat) (pin : String) :
    assertedRvs (loginTrace e s user pin) = [] := by
  unfold loginTrace assertedRvs
  split <;> simp

/-- The `~SessionTest` destructor's `C_CloseSession` count: one when the
stored handle differs from the sentinel, zero otherwise. -/
lemma countClose_sessionDtor (e : Env) (s : Nat) :
    countEv Event.isClose (sessionDtorTrace e s) =
      (if s = INVALID_SESSION_HANDLE then 0 else 1) := by
  unfold sessionDtorTrace countEv
  split <;> simp_all [Event.isClose]

/-- Close calls in a full session-fixture lifetime come only from the
`~SessionTest` destructor. -/
lemma countClose_sessionFixture (e : Env) (m : AccessMode) :
    countEv Event.isClose (sessionFixtureTrace e m) =
      (if sessionFixtureStored e m = INVALID_SESSION_HANDLE then 0 else 1) := by
  unfold sessionFixtureTrace
  rw [countEv_append, countEv_append, countEv_append, countEv_append,
    countClose_sessionDtor]
  have h1 : countEv Event.isClose (pkcs11CtorTrace e) = 0 := by
    simp [pkcs11CtorTrace, countEv, Event.isClose]
  have h2 : countEv Event.isClose (sessionCtorTrace e) = 0 := by
    unfold sessionCtorTrace countEv
    split <;> simp [Event.isClose]
  have h3 : countEv Event.isClose (openTrace e m.flags) = 0 := by
    simp [openTrace, countEv, Event.isClose]
  have h4 : countEv Event.isClose (pkcs11DtorTrace e) = 0 := by
    simp [pkcs11DtorTrace, countEv, Event.isClose]
  omega

lemma countEv_ite (p : Event → Bool) (c : Prop) [Decidable c]
    (t₁ t₂ : List Event) :
    countEv p (if c then t₁ else t₂) =
      if c then countEv p t₁ else countEv p t₂ := by
  split <;> rfl

lemma noneSat_append {p : Event → Bool} {t₁ t₂ : List Event}
    (h₁ : noneSat p t₁ = true) (h₂ : noneSat p t₂ = true) :
    noneSat p (t₁ ++ t₂) = true := by
  unfold noneSat at *
  rw [List.all_append]
  simp [h₁, h₂]

/-- The login-fixture lifetime, re-associated to split off the final
`~PKCS11Test` finalize segment. -/
lemma authFixtureTrace_eq_pre_fin (e : Env) (v : AuthVariant) :
    authFixtureTrace e v =
      (pkcs11CtorTrace e ++ sessionCtorTrace e ++ openTrace e v.mode.flags ++
        authCtorTrace e v (sessionFixtureStored e v.mode) ++
        authDtorTrace e v (sessionFixtureStored e v.mode) ++
        sessionDtorTrace e (sessionFixtureStored e v.mode)) ++
        pkcs11DtorTrace e := by
  simp [authFixtureTrace, List.append_assoc]

/-- The login-fixture lifetime, re-associated to split off the
`~SessionTest` close and `~PKCS11Test` finalize segments. -/
lemma authFixtureTrace_eq_pre_close (e : Env) (v : AuthVariant) :
    authFixtureTrace e v =
      (pkcs11CtorTrace e ++ sessionCtorTrace e ++ openTrace e v.mode.flags ++
        authCtorTrace e v (sessionFixtureStored e v.mode) ++
        authDtorTrace e v (sessionFixtureStored e v.mode)) ++
        (sessionDtorTrace e (sessionFixtureStored e v.mode) ++
          pkcs11DtorTrace e) := by
  simp [authFixtureTrace, List.append_assoc]

/-- C3: every constructed `PKCS11Test` performs exactly one `C_Initialize`
and exactly one `C_Finalize` over its lifetime, every initialize precedes
every finalize, and the destructor's finalize call is present for every
environment — in particular when `C_Initialize` returned a non-success
status. -/
theorem pkcs11_lifetime_bracket (e : Env) :
    countEv Event.isInit (pkcs11LifetimeTrace e) = 1 ∧
    countEv Event.isFin (pkcs11LifetimeTrace e) = 1 ∧
    allBefore Event.isInit Event.isFin (pkcs11LifetimeTrace e) ∧
    Event.finCall e.finRv ∈ pkcs11LifetimeTrace e := by
  refine ⟨?_, ?_, ?_, ?_⟩
  · simp [pkcs11LifetimeTrace, pkcs11CtorTrace, pkcs11DtorTrace, countEv,
      Event.isInit]
  · simp [pkcs11LifetimeTrace, pkcs11CtorTrace, pkcs11DtorTrace, countEv,
      Event.isFin]
  · unfold pkcs11LifetimeTrace
    apply allBefore_split
    · simp [noneSat, pkcs11DtorTrace, Event.isInit]
    · simp [noneSat, pkcs11CtorTrace, Event.isFin]
  · simp [pkcs11LifetimeTrace, pkcs11CtorTrace, pkcs11DtorTrace]

/-- C4: in the lifetime trace of a role-selected login fixture,
`C_Finalize` is never observed before `C_CloseSession`, and
`C_CloseSession` is never observed before `C_Logout` (destruction runs
logout, then close, then finalize). -/
theorem auth_destruction_order (e : Env) (v : AuthVariant)
    (hv : v.conditional = false) :
    neverBefore Event.isFin Event.isClose (authFixtureTrace e v) ∧
    neverBefore Event.isClose Event.isLogout (authFixtureTrace e v) := by
  constructor
  · rw [authFixtureTrace_eq_pre_fin]
    apply neverBefore_split
    · unfold pkcs11CtorTrace sessionCtorTrace openTrace authCtorTrace
        authDtorTrace sessionDtorTrace loginTrace
      split_ifs <;>
        simp [noneSat, Event.isFin, List.all_append]
    · simp [noneSat, pkcs11DtorTrace, Event.isClose]
  · rw [authFixtureTrace_eq_pre_close]
    apply neverBefore_split
    · unfold pkcs11CtorTrace sessionCtorTrace openTrace authCtorTrace
        authDtorTrace loginTrace
      split_ifs <;>
        simp [noneSat, Event.isClose, List.all_append]
    · unfold sessionDtorTrace pkcs11DtorTrace
      split_ifs <;>
        simp [noneSat, Event.isLogout, List.all_append]

/-- C4 witness: the destruction-order theorem applied to the read-write
user fixture in the all-success environment. -/
theorem auth_destruction_order_witness :
    AuthVariant.rwUser.conditional = false ∧
    (neverBefore Event.isFin Event.isClose
        (authFixtureTrace baseEnv AuthVariant.rwUser) ∧
      neverBefore Event.isClose Event.isLogout
        (authFixtureTrace baseEnv AuthVariant.rwUser)) :=
  ⟨by decide, auth_destruction_order baseEnv AuthVariant.rwUser (by decide)⟩

lemma countLogin_authFixture (e : Env) (v : AuthVariant) :
    countEv Event.isLogin (authFixtureTrace e v) =
      (if doesLogin v e.tokenFlags then 1 else 0) := by
  unfold authFixtureTrace
  rw [countEv_append, countEv_append, countEv_append, countEv_append,
    countEv_append, countEv_append]
  unfold pkcs11CtorTrace sessionCtorTrace openTrace authCtorTrace
    authDtorTrace sessionDtorTrace pkcs11DtorTrace loginTrace
  split_ifs <;> simp [countEv, Event.isLogin]

lemma countLogout_authFixture (e : Env) (v : AuthVariant) :
    countEv Event.isLogout (authFixtureTrace e v) =
      (if doesLogin v e.tokenFlags then 1 else 0) := by
  unfold authFixtureTrace
  rw [countEv_append, countEv_append, countEv_append, countEv_append,
    countEv_append, countEv_append]
  unfold pkcs11CtorTrace sessionCtorTrace openTrace authCtorTrace
    authDtorTrace sessionDtorTrace pkcs11DtorTrace loginTrace
  split_ifs <;> simp [countEv, Event.isLogout]

lemma countOpen_authFixture (e : Env) (v : AuthVariant) :
    countEv Event.isOpen (authFixtureTrace e v) = 1 := by
  unfold authFixtureTrace
  rw [countEv_append, countEv_append, countEv_append, countEv_append,
    countEv_append, countEv_append]
  unfold pkcs11CtorTrace sessionCtorTrace openTrace authCtorTrace
    authDtorTrace sessionDtorTrace pkcs11DtorTrace loginTrace
  split_ifs <;> simp [countEv, Event.isOpen]

lemma countClose_authFixture (e : Env) (v : AuthVariant) :
    countEv Event.isClose (authFixtureTrace e v) =
      (if sessionFixtureStored e v.mode = INVALID_SESSION_HANDLE
        then 0 else 1) := by
  unfold authFixtureTrace
  rw [countEv_append, countEv_append, countEv_append, countEv_append,
    countEv_append, countEv_append]
  unfold pkcs11CtorTrace sessionCtorTrace openTrace authCtorTrace
    authDtorTrace sessionDtorTrace pkcs11DtorTrace loginTrace
  split_ifs <;> simp_all [countEv, Event.isClose]

lemma countOpen_sessionFixture (e : Env) (m : AccessMode) :
    countEv Event.isOpen (sessionFixtureTrace e m) = 1 := by
  unfold sessionFixtureTrace
  rw [countEv_append, countEv_append, countEv_append, countEv_append]
  unfold pkcs11CtorTrace sessionCtorTrace openTrace sessionDtorTrace
    pkcs11DtorTrace
  split_ifs <;> simp [countEv, Event.isOpen]

/-- The `EXPECT_CKR_OK`-asserted statuses of a full session-fixture run:
initialize, slot info, open, the close status when a close happens, and
finalize.  No other status is asserted. -/
lemma assertedRvs_sessionFixture (e : Env) (m : AccessMode) :
    assertedRvs (sessionFixtureTrace e m) =
      [e.initRv, e.slotInfoRv, e.openRv e.slotId m.flags] ++
        (if sessionFixtureStored e m = INVALID_SESSION_HANDLE then []
          else [e.closeRv (sessionFixtureStored e m)]) ++ [e.finRv] := by
  unfold sessionFixtureTrace pkcs11CtorTrace sessionCtorTrace openTrace
    sessionDtorTrace pkcs11DtorTrace
  rw [assertedRvs_append, assertedRvs_append, assertedRvs_append,
    assertedRvs_append]
  split_ifs <;> simp_all [assertedRvs]

/-- The `EXPECT_CKR_OK`-asserted statuses of a full login-fixture run:
initialize, slot info, open, the logout status when the variant logs out,
the close status when a close happens, and finalize.  The login status is
never among them. -/
lemma assertedRvs_authFixture (e : Env) (v : AuthVariant) :
    assertedRvs (authFixtureTrace e v) =
      [e.initRv, e.slotInfoRv, e.openRv e.slotId v.mode.flags] ++
        (if doesLogin v e.tokenFlags
          then [e.logoutRv (sessionFixtureStored e v.mode)] else []) ++
        (if sessionFixtureStored e v.mode = INVALID_SESSION_HANDLE then []
          else [e.closeRv (sessionFixtureStored e v.mode)]) ++ [e.finRv] := by
  unfold authFixtureTrace pkcs11CtorTrace sessionCtorTrace openTrace
    authCtorTrace authDtorTrace sessionDtorTrace pkcs11DtorTrace loginTrace
  simp only [assertedRvs_append]
  split_ifs <;> simp_all [assertedRvs]

/-- C5: for every login fixture variant, the number of `C_Login` calls over
the lifetime equals the number of `C_Logout` calls, and that number is
`doesLogin v tokenFlags` — a function of the variant's declared policy and
the token flags only, never of any call's runtime status; the base
fixture's single open, and its close exactly when the stored handle is not
the sentinel, still occur in every case. -/
theorem login_logout_balance (e : Env) (v : AuthVariant) :
    countEv Event.isLogin (authFixtureTrace e v) =
      countEv Event.isLogout (authFixtureTrace e v) ∧
    countEv Event.isLogin (authFixtureTrace e v) =
      (if doesLogin v e.tokenFlags then 1 else 0) ∧
    countEv Event.isOpen (authFixtureTrace e v) = 1 ∧
    countEv Event.isClose (authFixtureTrace e v) =
      (if sessionFixtureStored e v.mode = INVALID_SESSION_HANDLE
        then 0 else 1) :=
  ⟨(countLogin_authFixture e v).trans (countLogout_authFixture e v).symm,
   countLogin_authFixture e v, countOpen_authFixture e v,
   countClose_authFixture e v⟩

/-- C1 counterexample: in `collideEnv` the `C_OpenSession` call succeeds
(`CKR_OK`) yet writes the handle value `99999`, so after construction the
stored handle equals the invalid sentinel although the open did not fail —
"the stored session handle equals the invalid sentinel if and only if the
open_session call failed" is false as stated. -/
theorem stored_sentinel_iff_open_failed_cex :
    ¬(sessionFixtureStored collideEnv AccessMode.ro = INVALID_SESSION_HANDLE ↔
      collideEnv.openRv collideEnv.slotId (AccessMode.flags AccessMode.ro) ≠
        CKR_OK) := by
  decide

/-- C1 amended: provided a successful open writes a non-sentinel handle
through the out-parameter and a failed open writes either nothing or the
sentinel, the stored handle equals the invalid sentinel iff the open call
failed; and (unconditionally) the destructor issues a close call iff the
stored handle is not the sentinel — zero close calls when it is. -/
theorem stored_sentinel_iff_open_failed (e : Env) (m : AccessMode)
    (hsucc : e.openRv e.slotId m.flags = CKR_OK →
      ∃ h, e.openWrite e.slotId m.flags = some h ∧
        h ≠ INVALID_SESSION_HANDLE)
    (hfail : e.openRv e.slotId m.flags ≠ CKR_OK →
      e.openWrite e.slotId m.flags = none ∨
      e.openWrite e.slotId m.flags = some INVALID_SESSION_HANDLE) :
    (sessionFixtureStored e m = INVALID_SESSION_HANDLE ↔
      e.openRv e.slotId m.flags ≠ CKR_OK) ∧
    countEv Event.isClose (sessionFixtureTrace e m) =
      (if sessionFixtureStored e m = INVALID_SESSION_HANDLE
        then 0 else 1) := by
  refine ⟨?_, countClose_sessionFixture e m⟩
  by_cases hrv : e.openRv e.slotId m.flags = CKR_OK
  · obtain ⟨h, hw, hne⟩ := hsucc hrv
    simp [sessionFixtureStored, storedHandle, hw, hne, hrv]
  · rcases hfail hrv with hw | hw <;>
      simp [sessionFixtureStored, storedHandle, hw, hrv]

/-- C1 witness: the amended equivalence applied to the all-success
environment, whose open writes the non-sentinel handle `7`. -/
theorem stored_sentinel_iff_open_failed_witness :
    ((baseEnv.openRv baseEnv.slotId (AccessMode.flags AccessMode.ro) =
        CKR_OK →
      ∃ h, baseEnv.openWrite baseEnv.slotId (AccessMode.flags AccessMode.ro) =
          some h ∧ h ≠ INVALID_SESSION_HANDLE) ∧
      (baseEnv.openRv baseEnv.slotId (AccessMode.flags AccessMode.ro) ≠
          CKR_OK →
        baseEnv.openWrite baseEnv.slotId (AccessMode.flags AccessMode.ro) =
          none ∨
        baseEnv.openWrite baseEnv.slotId (AccessMode.flags AccessMode.ro) =
          some INVALID_SESSION_HANDLE)) ∧
    ((sessionFixtureStored baseEnv AccessMode.ro = INVALID_SESSION_HANDLE ↔
        baseEnv.openRv baseEnv.slotId (AccessMode.flags AccessMode.ro) ≠
          CKR_OK) ∧
      countEv Event.isClose (sessionFixtureTrace baseEnv AccessMode.ro) =
        (if sessionFixtureStored baseEnv AccessMode.ro =
            INVALID_SESSION_HANDLE then 0 else 1)) :=
  ⟨⟨fun _ => ⟨7, rfl, by decide⟩, fun hne => absurd rfl hne⟩,
    stored_sentinel_iff_open_failed baseEnv AccessMode.ro
      (fun _ => ⟨7, rfl, by decide⟩) (fun hne => absurd rfl hne)⟩

/-- C2 counterexample: in `loginFailEnv` the mandatory read-only user
fixture's `C_Login` returns status `5 ≠ CKR_OK`, yet the whole run records
zero test failures — the non-success login status is not asserted, contrary
to the claim that it is hard-checked. -/
theorem mandatory_login_not_asserted_cex :
    loginFailEnv.loginRv (sessionFixtureStored loginFailEnv AccessMode.ro)
        CKU_USER loginFailEnv.userPin ≠ CKR_OK ∧
    countEv Event.isLogin
      (authFixtureTrace loginFailEnv AuthVariant.roUser) = 1 ∧
    testFailures (authFixtureTrace loginFailEnv AuthVariant.roUser) = 0 := by
  refine ⟨by decide, by decide, by decide⟩

/-- C2 amended: for every mandatory (role-selected) variant, exactly one
login call and exactly one logout call occur; the number of recorded test
failures is independent of the login status — a non-success login is only
logged, never asserted — while the destructor's logout status is asserted
via `EXPECT_CKR_OK` (so in the all-success scenario both calls happen once
and the logout is asserted as success). -/
theorem mandatory_login_logout_asserts (e : Env) (v : AuthVariant)
    (hv : v.conditional = false) :
    countEv Event.isLogin (authFixtureTrace e v) = 1 ∧
    countEv Event.isLogout (authFixtureTrace e v) = 1 ∧
    (∀ rv, testFailures (authFixtureTrace (e.withLoginRv rv) v) =
      testFailures (authFixtureTrace (e.withLoginRv CKR_OK) v)) ∧
    e.logoutRv (sessionFixtureStored e v.mode) ∈
      assertedRvs (authFixtureTrace e v) := by
  have hd : doesLogin v e.tokenFlags = true := by
    simp [doesLogin, hv]
  refine ⟨?_, ?_, ?_, ?_⟩
  · rw [countLogin_authFixture]
    simp [hd]
  · rw [countLogout_authFixture]
    simp [hd]
  · intro rv
    unfold testFailures
    rw [assertedRvs_authFixture, assertedRvs_authFixture]
    simp [Env.withLoginRv, sessionFixtureStored, storedHandle]
  · rw [assertedRvs_authFixture]
    simp [hd]

/-- C2 witness: the amended statement applied to the read-only user
fixture in the all-success environment. -/
theorem mandatory_login_logout_asserts_witness :
    AuthVariant.roUser.conditional = false ∧
    (countEv Event.isLogin
        (authFixtureTrace baseEnv AuthVariant.roUser) = 1 ∧
      countEv Event.isLogout
        (authFixtureTrace baseEnv AuthVariant.roUser) = 1 ∧
      (∀ rv, testFailures
          (authFixtureTrace (baseEnv.withLoginRv rv) AuthVariant.roUser) =
        testFailures
          (authFixtureTrace (baseEnv.withLoginRv CKR_OK)
            AuthVariant.roUser)) ∧
      baseEnv.logoutRv (sessionFixtureStored baseEnv AccessMode.ro) ∈
        assertedRvs (authFixtureTrace baseEnv AuthVariant.roUser)) :=
  ⟨by decide,
    mandatory_login_logout_asserts baseEnv AuthVariant.roUser (by decide)⟩

/-- The `EXPECT_CKR_OK`-asserted statuses of a `LoginSession<F,U>` guard's
lifetime: exactly the open status and the close status — the `C_Logout`
status is not among them. -/
lemma assertedRvs_loginSession (e : Env) (F U init : Nat) (pin : String) :
    assertedRvs (loginSessionTrace e F U init pin) =
      [e.openRv e.slotId F, e.closeRv (sessionGuardStored e F init)] := by
  unfold loginSessionTrace openTrace sessionGuardDtorTrace loginTrace
  simp only [assertedRvs_append]
  split_ifs <;> simp [assertedRvs]

/-- C6: a `LoginSession` guard's destructor logout is best-effort: exactly
one logout call occurs, the number of recorded test failures is
independent of the logout status (it is never asserted), while the base
guard's single close call has its status asserted via `EXPECT_CKR_OK`
(`assertedRvs` is exactly open-status then close-status). -/
theorem login_session_logout_best_effort (e : Env) (F U init : Nat)
    (pin : String) :
    countEv Event.isLogout (loginSessionTrace e F U init pin) = 1 ∧
    countEv Event.isClose (loginSessionTrace e F U init pin) = 1 ∧
    (∀ rv, testFailures (loginSessionTrace (e.withLogoutRv rv) F U init pin) =
      testFailures (loginSessionTrace (e.withLogoutRv CKR_OK) F U init pin)) ∧
    assertedRvs (loginSessionTrace e F U init pin) =
      [e.openRv e.slotId F, e.closeRv (sessionGuardStored e F init)] := by
  refine ⟨?_, ?_, ?_, assertedRvs_loginSession e F U init pin⟩
  · unfold loginSessionTrace openTrace sessionGuardDtorTrace loginTrace
    simp only [countEv_append]
    split_ifs <;> simp [countEv, Event.isLogout]
  · unfold loginSessionTrace openTrace sessionGuardDtorTrace loginTrace
    simp only [countEv_append]
    split_ifs <;> simp [countEv, Event.isClose]
  · intro rv
    unfold testFailures
    rw [assertedRvs_loginSession, assertedRvs_loginSession]
    simp [Env.withLogoutRv, sessionGuardStored]

/-- C7: when the slot-info flags lack `CKF_TOKEN_PRESENT`, session-fixture
construction writes the token warning to the error stream, still proceeds
to the single `C_OpenSession` call, and records exactly as many test
failures as the same run against a slot with a token present — the check
is diagnostic only. -/
theorem token_absent_warning_diagnostic (e : Env) (m : AccessMode)
    (habs : e.slotInfoFlags &&& CKF_TOKEN_PRESENT = 0) :
    Event.cerrTokenWarning ∈ sessionFixtureTrace e m ∧
    countEv Event.isOpen (sessionFixtureTrace e m) = 1 ∧
    testFailures (sessionFixtureTrace e m) =
      testFailures (sessionFixtureTrace e.withTokenPresent m) := by
  refine ⟨?_, countOpen_sessionFixture e m, ?_⟩
  · simp [sessionFixtureTrace, sessionCtorTrace, habs]
  · unfold testFailures
    rw [assertedRvs_sessionFixture, assertedRvs_sessionFixture]
    simp [Env.withTokenPresent, sessionFixtureStored, storedHandle]

/-- C7 witness: the diagnostic-only statement applied to `noTokenEnv`,
whose slot reports no token present. -/
theorem token_absent_warning_diagnostic_witness :
    noTokenEnv.slotInfoFlags &&& CKF_TOKEN_PRESENT = 0 ∧
    (Event.cerrTokenWarning ∈ sessionFixtureTrace noTokenEnv AccessMode.rw ∧
      countEv Event.isOpen (sessionFixtureTrace noTokenEnv AccessMode.rw) =
        1 ∧
      testFailures (sessionFixtureTrace noTokenEnv AccessMode.rw) =
        testFailures
          (sessionFixtureTrace noTokenEnv.withTokenPresent AccessMode.rw)) :=
  ⟨by decide,
    token_absent_warning_diagnostic noTokenEnv AccessMode.rw (by decide)⟩

/-- C8: every `C_OpenSession` issued by a session fixture passes exactly
its access mode's flags, and those flags are `CKF_SERIAL_SESSION` alone
for read-only and `CKF_SERIAL_SESSION | CKF_RW_SESSION` for read-write;
the `ROSession` / `RWSession` guard instantiations open with the same two
flag combinations. -/
theorem open_flags_by_access_mode (e : Env) (m : AccessMode) (init : Nat) :
    openFlagsIn (sessionFixtureTrace e m) = [m.flags] ∧
    openFlagsIn (ROSessionTrace e init) = [CKF_SERIAL_SESSION] ∧
    openFlagsIn (RWSessionTrace e init) =
      [CKF_SERIAL_SESSION ||| CKF_RW_SESSION] ∧
    AccessMode.flags AccessMode.ro = CKF_SERIAL_SESSION ∧
    AccessMode.flags AccessMode.rw =
      (CKF_SERIAL_SESSION ||| CKF_RW_SESSION) := by
  refine ⟨?_, ?_, ?_, rfl, rfl⟩
  · unfold sessionFixtureTrace pkcs11CtorTrace sessionCtorTrace openTrace
      sessionDtorTrace pkcs11DtorTrace
    unfold openFlagsIn
    simp only [List.filterMap_append]
    split_ifs <;> simp
  · unfold ROSessionTrace sessionGuardTrace openTrace
      sessionGuardDtorTrace openFlagsIn
    simp
  · unfold RWSessionTrace sessionGuardTrace openTrace
      sessionGuardDtorTrace openFlagsIn
    simp

/-- C9: the `Session<F>` guard's destructor closes unconditionally: even
when the guard's open call fails, exactly one `C_CloseSession` is issued,
on whatever value the (uninitialized) member holds — `init` itself when
the library wrote nothing — unlike the session fixture, which issues zero
close calls when a failed open writes nothing (the member keeps the
sentinel). -/
theorem guard_close_unconditional (e : Env) (F init : Nat)
    (hfail : e.openRv e.slotId F ≠ CKR_OK) :
    countEv Event.isClose (sessionGuardTrace e F init) = 1 ∧
    Event.closeSessionCall (sessionGuardStored e F init)
        (e.closeRv (sessionGuardStored e F init)) ∈
      sessionGuardTrace e F init ∧
    (e.openWrite e.slotId F = none → sessionGuardStored e F init = init) ∧
    (∀ m : AccessMode, e.openWrite e.slotId m.flags = none →
      countEv Event.isClose (sessionFixtureTrace e m) = 0) := by
  refine ⟨?_, ?_, ?_, ?_⟩
  · unfold sessionGuardTrace openTrace sessionGuardDtorTrace
    simp [countEv, Event.isClose]
  · simp [sessionGuardTrace, openTrace, sessionGuardDtorTrace]
  · intro hw
    simp [sessionGuardStored, hw]
  · intro m hw
    have hs : sessionFixtureStored e m = INVALID_SESSION_HANDLE := by
      simp [sessionFixtureStored, storedHandle, hw]
    rw [countClose_sessionFixture, hs]
    simp

/-- C9 witness: the unconditional-close statement applied to
`openFailEnv`, whose open fails with status `6` and writes nothing, with
the indeterminate initial member value `12345`. -/
theorem guard_close_unconditional_witness :
    openFailEnv.openRv openFailEnv.slotId CKF_SERIAL_SESSION ≠ CKR_OK ∧
    (countEv Event.isClose
        (sessionGuardTrace openFailEnv CKF_SERIAL_SESSION 12345) = 1 ∧
      Event.closeSessionCall
          (sessionGuardStored openFailEnv CKF_SERIAL_SESSION 12345)
          (openFailEnv.closeRv
            (sessionGuardStored openFailEnv CKF_SERIAL_SESSION 12345)) ∈
        sessionGuardTrace openFailEnv CKF_SERIAL_SESSION 12345 ∧
      (openFailEnv.openWrite openFailEnv.slotId CKF_SERIAL_SESSION = none →
        sessionGuardStored openFailEnv CKF_SERIAL_SESSION 12345 = 12345) ∧
      (∀ m : AccessMode,
        openFailEnv.openWrite openFailEnv.slotId m.flags = none →
        countEv Event.isClose (sessionFixtureTrace openFailEnv m) = 0)) :=
  ⟨by decide,
    guard_close_unconditional openFailEnv CKF_SERIAL_SESSION 12345
      (by decide)⟩

/-- C10: the destructor's validity check is numeric equality with the
constant `99999`: whenever a successful open writes a handle numerically
equal to `INVALID_SESSION_HANDLE`, the stored handle equals the sentinel
and the destructor issues zero `C_CloseSession` calls — the session
leaks. -/
theorem sentinel_collision_leaks_session (e : Env) (m : AccessMode)
    (hok : e.openRv e.slotId m.flags = CKR_OK)
    (hw : e.openWrite e.slotId m.flags = some INVALID_SESSION_HANDLE) :
    sessionFixtureStored e m = INVALID_SESSION_HANDLE ∧
    countEv Event.isClose (sessionFixtureTrace e m) = 0 := by
  have hs : sessionFixtureStored e m = INVALID_SESSION_HANDLE := by
    simp [sessionFixtureStored, storedHandle, hw]
  refine ⟨hs, ?_⟩
  rw [countClose_sessionFixture, hs]
  simp

/-- C10 witness: the leak statement applied to `collideEnv`, where the
open succeeds and writes `99999`. -/
theorem sentinel_collision_leaks_session_witness :
    (collideEnv.openRv collideEnv.slotId (AccessMode.flags AccessMode.rw) =
        CKR_OK ∧
      collideEnv.openWrite collideEnv.slotId
          (AccessMode.flags AccessMode.rw) =
        some INVALID_SESSION_HANDLE) ∧
    (sessionFixtureStored collideEnv AccessMode.rw =
        INVALID_SESSION_HANDLE ∧
      countEv Event.isClose (sessionFixtureTrace collideEnv AccessMode.rw) =
        0) :=
  ⟨⟨rfl, rfl⟩,
    sentinel_collision_leaks_session collideEnv AccessMode.rw rfl rfl⟩

end Pkcs11
